import Mathlib

/-!
# Sign-up page object and random test-data generator

A shallow embedding of

* `src/utils/random_generator_util.js` (`generateRandomPassword`), and
* `src/pages/sign_up_page.js` (the `SignUpUserPage` page object, in particular
  `searchNewCountryValue` and `selectNewCountryValue`),

followed by theorems about them.

Conventions of the embedding.

* JavaScript numbers that the password generator computes with are IEEE-754
  doubles.  A double in `[0,1)` is kept exactly, as a dyadic rational
  `mant / 2 ^ exp`; the one floating-point operation of the source
  (`Math.random() * n`) rounds to nearest, ties to even, at 53 significant bits.
* `Math.random()` is a stream of such doubles; every call takes the next one.
* The browser automation driver is external.  It is a record of fallible
  primitives over an arbitrary state type; the page object is written against
  it in a monad that threads the driver state, propagates rejections and
  records every driver call that is issued.
-/

namespace SignUp

/-! ## JavaScript values and doubles -/

/-- A JavaScript value that a caller may pass as an argument. -/
inductive JsValue where
  | undefined
  | null
  | bool (b : Bool)
  | number (n : Int)
  | string (s : String)
  deriving DecidableEq, Repr

/-- A double in the half-open unit interval: the value `mant / 2 ^ exp`.
Normal doubles below one have `2 ^ 52 ≤ mant` and `53 ≤ exp ≤ 1074`, subnormal
ones have `exp = 1074`; every double in `[0,1)` is of this form. -/
structure UnitDouble where
  mant : Nat
  exp : Nat
  mant_lt : mant < 2 ^ 53
  exp_ge : 53 ≤ exp
  exp_le : exp ≤ 1074

/-- A non-negative double given as `num / 2 ^ exp`. -/
structure Dyadic where
  num : Nat
  exp : Nat
  deriving DecidableEq, Repr

/-- Number of low bits that do not fit a 53-bit significand: the bit length of
`p` minus 53 (zero when `p < 2 ^ 53`).  The first argument bounds the number of
halvings; `p` itself is always enough. -/
def excessBits : Nat → Nat → Nat
  | 0, _ => 0
  | fuel + 1, p => if p < 2 ^ 53 then 0 else excessBits fuel (p / 2) + 1

/-- Round the integer `p` to 53 significant bits, to nearest, ties to even. -/
def roundToDouble (p : Nat) : Nat :=
  if p < 2 ^ 53 then p
  else
    let s := excessBits p p
    let q := p / 2 ^ s
    let r := p % 2 ^ s
    let half := 2 ^ (s - 1)
    if half < r ∨ (r = half ∧ q % 2 = 1) then (q + 1) * 2 ^ s else q * 2 ^ s

/-- The double product `x * n` of a unit-interval double and a small integer:
the exact product `x.mant * n / 2 ^ x.exp`, rounded. -/
def UnitDouble.times (x : UnitDouble) (n : Nat) : Dyadic :=
  ⟨roundToDouble (x.mant * n), x.exp⟩

/-- The function `Math.floor` on a non-negative double. -/
def Math.floor (d : Dyadic) : Nat :=
  d.num / 2 ^ d.exp

/-- The successive results of `Math.random()`. -/
abbrev RandomSource := Nat → UnitDouble

/-- One call of `Math.random()`: the next draw and the remaining stream. -/
def Math.random (src : RandomSource) : UnitDouble × RandomSource :=
  (src 0, fun k => src (k + 1))

/-- Indexing `s[i]` of a JavaScript string: `undefined` out of range. -/
def charAt (s : String) (i : Nat) : Option Char :=
  s.toList[i]?

/-- The statement `password += x` where `x` is a one-character string or
`undefined` (which JavaScript converts to the text "undefined"). -/
def appendJs (password : String) (x : Option Char) : String :=
  match x with
  | some c => password.push c
  | none => password ++ "undefined"

/-! ## `random_generator_util.js` -/

def uppercaseLetters : String := "ABCDEFGHIJKLMNOPQRSTUVWXYZ"

def lowercaseLetters : String := "abcdefghijklmnopqrstuvwxyz"

def numbers : String := "0123456789"

def specialCharacters : String := "!@#$%^&*()_+[]\x7b\x7d|;:,.<>?"

/-- The unused local `allCharacters` of `generateRandomPassword`. -/
def allCharacters : String :=
  uppercaseLetters ++ lowercaseLetters ++ numbers ++ specialCharacters

/-- The statement `password += chars[Math.floor(Math.random() * chars.length)]`
on the pair of the password built so far and the random stream. -/
def appendRandomChar (chars : String) (st : String × RandomSource) : String × RandomSource :=
  let (r, rest) := Math.random st.2
  (appendJs st.1 (charAt chars (Math.floor (r.times chars.length))), rest)

/-- The body of the `for` loop of `generateRandomPassword`. -/
def appendGroup (st : String × RandomSource) : String × RandomSource :=
  let st := appendRandomChar uppercaseLetters st
  let st := appendRandomChar lowercaseLetters st
  let st := appendRandomChar numbers st
  appendRandomChar specialCharacters st

/-- The function `generateRandomPassword(passwordLength)`: the loop
`for (let i = 0; i < 3; i++)` runs its body for `i = 0, 1, 2`. -/
def generateRandomPassword (passwordLength : JsValue) (random : RandomSource) : String :=
  let _ := passwordLength
  ((List.range 3).foldl (fun st _i => appendGroup st) ("", random)).1

/-- A sample stream of `Math.random()` results: the `k`-th draw is
`(k * 2718281828459045 + 3141592653589793) mod 2 ^ 53 / 2 ^ 53`. -/
def sampleRandom : RandomSource := fun k =>
  { mant := (k * 2718281828459045 + 3141592653589793) % 2 ^ 53
    exp := 53
    mant_lt := Nat.mod_lt _ (by decide)
    exp_ge := Nat.le_refl 53
    exp_le := by decide }

/-! ## The automation driver -/

/-- The ways the page object resolves an element handle. -/
inductive Locator where
  | getByLabel (text : String)
  | locator (selector : String)
  | filterHasText (base : Locator) (hasText : String)
  deriving DecidableEq, Repr

/-- A call to a driver primitive. -/
inductive Call where
  | fill (target : Locator) (value : String)
  | click (target : Locator)
  | check (target : Locator) (force : Bool)
  | press (key : String)
  | getAttribute (target : Locator) (name : String)
  | textContent (target : Locator)
  | inputValue (target : Locator)
  deriving DecidableEq, Repr

/-- The driver: each primitive either rejects with a message or yields its
result and the next state of the browser session.  `getAttribute` and
`textContent` yield `none` for JavaScript `null`. -/
structure Driver (σ : Type) where
  fill : Locator → String → σ → Except String σ
  click : Locator → σ → Except String σ
  check : Locator → Bool → σ → Except String σ
  press : String → σ → Except String σ
  getAttribute : Locator → String → σ → Except String (Option String × σ)
  textContent : Locator → σ → Except String (Option String × σ)
  inputValue : Locator → σ → Except String (String × σ)

/-- What an `async` method of the page object can reject with. -/
inductive PageError where
  | driver (message : String)
  | thrown (message : String)
  deriving DecidableEq, Repr

/-- A browser session under observation: the driver state and the driver calls
issued so far, each with the state it was issued in. -/
structure Session (σ : Type) where
  state : σ
  history : List (Call × σ)

/-- An `async` computation: it runs on a session and either resolves or
rejects, leaving the session as it was when it stopped. -/
def Async (σ α : Type) : Type :=
  Session σ → Except PageError α × Session σ

instance (σ : Type) : Monad (Async σ) where
  pure a := fun s => (Except.ok a, s)
  bind m f := fun s =>
    match m s with
    | (Except.ok a, s') => f a s'
    | (Except.error e, s') => (Except.error e, s')

/-- The statement `throw new Error(message)`. -/
def throwNew {σ α : Type} (message : String) : Async σ α :=
  fun s => (Except.error (PageError.thrown message), s)

/-- Issue one driver call: record it, then resolve with its result in the new
state, or reject with the driver's message in the unchanged state. -/
def issue {σ α : Type} (c : Call) (run : σ → Except String (α × σ)) : Async σ α :=
  fun s =>
    let history := s.history ++ [(c, s.state)]
    match run s.state with
    | Except.ok (a, st) => (Except.ok a, ⟨st, history⟩)
    | Except.error message => (Except.error (PageError.driver message), ⟨s.state, history⟩)

namespace Driver

variable {σ : Type} (d : Driver σ)

def fillAsync (target : Locator) (value : String) : Async σ Unit :=
  issue (Call.fill target value) (fun st => (d.fill target value st).map (fun st' => ((), st')))

def clickAsync (target : Locator) : Async σ Unit :=
  issue (Call.click target) (fun st => (d.click target st).map (fun st' => ((), st')))

def checkAsync (target : Locator) (force : Bool) : Async σ Unit :=
  issue (Call.check target force) (fun st => (d.check target force st).map (fun st' => ((), st')))

def pressAsync (key : String) : Async σ Unit :=
  issue (Call.press key) (fun st => (d.press key st).map (fun st' => ((), st')))

def getAttributeAsync (target : Locator) (name : String) : Async σ (Option String) :=
  issue (Call.getAttribute target name) (d.getAttribute target name)

def textContentAsync (target : Locator) : Async σ (Option String) :=
  issue (Call.textContent target) (d.textContent target)

def inputValueAsync (target : Locator) : Async σ String :=
  issue (Call.inputValue target) (d.inputValue target)

end Driver

/-- Truthiness of a `string | null` value: `null` and the empty string are falsy. -/
def truthy : Option String → Bool
  | none => false
  | some s => s != ""

/-- The text a `string | null` value contributes to a template literal. -/
def interpolate : Option String → String
  | none => "null"
  | some s => s

/-! ## `sign_up_page.js` -/

/-- The class `SignUpUserPage`: the page (driver) and the element handles
resolved by the constructor. -/
structure SignUpUserPage (σ : Type) where
  page : Driver σ
  firstName : Locator
  lastName : Locator
  workEmail : Locator
  phoneNumber : Locator
  userPassword : Locator
  companyName : Locator
  countryDropDown : Locator
  informationMedia : Locator
  termsAndConditionCheck : Locator
  receiveUpdatesCheck : Locator
  createAccountButton : Locator

namespace SignUpUserPage

/-- The constructor `new SignUpUserPage(page)`. -/
def new {σ : Type} (page : Driver σ) : SignUpUserPage σ where
  page := page
  firstName := Locator.getByLabel "First name"
  lastName := Locator.getByLabel "Last name"
  workEmail := Locator.getByLabel "Work e-mail"
  phoneNumber := Locator.getByLabel "Phone number"
  userPassword := Locator.locator "//input[@id=\"textfield-:R2kmkmm:\" and @name=\"password\"]"
  companyName := Locator.getByLabel "Company name"
  countryDropDown := Locator.locator "#registration-country-input"
  informationMedia := Locator.getByLabel "How did you hear about us?"
  termsAndConditionCheck :=
    Locator.locator "label:has(input[name=\"acceptTos\"]) input[name=\"acceptTos\"]"
  receiveUpdatesCheck := Locator.filterHasText (Locator.locator "label") "I'm happy to receive very"
  createAccountButton := Locator.locator "text=\"Create an account\""

variable {σ : Type} (self : SignUpUserPage σ)

def addFirstName (firstName : String) : Async σ Unit :=
  self.page.fillAsync self.firstName firstName

def addLastName (lastName : String) : Async σ Unit :=
  self.page.fillAsync self.lastName lastName

def addWorkEmail (workEmail : String) : Async σ Unit :=
  self.page.fillAsync self.workEmail workEmail

def addPhoneNumber (phoneNumber : String) : Async σ Unit :=
  self.page.fillAsync self.phoneNumber phoneNumber

def addPassword (passwordValue : String) : Async σ Unit :=
  self.page.fillAsync self.userPassword passwordValue

def addCompanyName (companyName : String) : Async σ Unit :=
  self.page.fillAsync self.companyName companyName

/-- The method `searchNewCountryValue(country)`. -/
def searchNewCountryValue (country : String) : Async σ (Option String) := do
  self.page.clickAsync self.countryDropDown
  self.page.fillAsync self.countryDropDown ""
  self.page.fillAsync self.countryDropDown country
  self.page.pressAsync "ArrowDown"
  let ariaActiveDescendant ←
    self.page.getAttributeAsync self.countryDropDown "aria-activedescendant"
  if truthy ariaActiveDescendant then
    self.page.textContentAsync (Locator.locator ("#" ++ interpolate ariaActiveDescendant))
  else
    throwNew "aria-activedescendant attribute is not set"

/-- The method `selectNewCountryValue(country)`. -/
def selectNewCountryValue (country : String) : Async σ String := do
  self.page.clickAsync self.countryDropDown
  self.page.fillAsync self.countryDropDown ""
  self.page.fillAsync self.countryDropDown country
  self.page.pressAsync "ArrowDown"
  self.page.pressAsync "Enter"
  self.page.inputValueAsync self.countryDropDown

def addInformationMedia (infoMedia : String) : Async σ Unit :=
  self.page.fillAsync self.informationMedia infoMedia

def checkTermsAndConditions : Async σ Unit :=
  self.page.checkAsync self.termsAndConditionCheck true

def checkReceiveUpdates : Async σ Unit :=
  self.page.clickAsync self.receiveUpdatesCheck

def clickCreateAccountButton : Async σ Unit :=
  self.page.clickAsync self.createAccountButton

end SignUpUserPage

/-- The driver calls issued in a session, oldest first. -/
def Session.calls {σ : Type} (s : Session σ) : List Call :=
  s.history.map Prod.fst

/-- The key events among a list of driver calls, oldest first. -/
def keyEvents : List Call → List String
  | [] => []
  | Call.press key :: rest => key :: keyEvents rest
  | _ :: rest => keyEvents rest

/-- A session that starts in the given driver state with no call issued. -/
def Session.start {σ : Type} (st : σ) : Session σ :=
  ⟨st, []⟩

/-! ## Contracts of the external control -/

/-- The contract of `fill` on a text control whose content is observed by
`text`: filling with the empty string empties the control, and filling an empty
control leaves exactly the text filled in.  (It holds both for a `fill` that
replaces the content and for one that types after the existing content.) -/
structure FillContract {σ : Type} (d : Driver σ) (target : Locator) (text : σ → String) :
    Prop where
  clear : ∀ st st', d.fill target "" st = Except.ok st' → text st' = ""
  type : ∀ value st st', text st = "" → d.fill target value st = Except.ok st' →
    text st' = value

/-- The contract of a form whose committed selection, observed by `committed`,
changes on no driver primitive other than the Enter key event. -/
structure CommitsOnlyOnEnter {σ γ : Type} (d : Driver σ) (committed : σ → γ) : Prop where
  fill : ∀ target value st st', d.fill target value st = Except.ok st' →
    committed st' = committed st
  click : ∀ target st st', d.click target st = Except.ok st' → committed st' = committed st
  check : ∀ target force st st', d.check target force st = Except.ok st' →
    committed st' = committed st
  press : ∀ key st st', key ≠ "Enter" → d.press key st = Except.ok st' →
    committed st' = committed st
  getAttribute : ∀ target name st r st', d.getAttribute target name st = Except.ok (r, st') →
    committed st' = committed st
  textContent : ∀ target st r st', d.textContent target st = Except.ok (r, st') →
    committed st' = committed st
  inputValue : ∀ target st r st', d.inputValue target st = Except.ok (r, st') →
    committed st' = committed st

/-! ## A stub driver: one country combobox -/

/-- State of the stub page: whether the country control is interactable, the
text in it, the highlighted option, and the committed selection. -/
structure Combo where
  interactable : Bool
  text : String
  active : Option Nat
  committed : Option String
  deriving DecidableEq, Repr

/-- The options of the stub combobox: element id and display text. -/
def countryOptions : List (String × String) :=
  [("registration-country-option-0", "Germany"),
   ("registration-country-option-1", "Norway"),
   ("registration-country-option-2", "Sweden"),
   ("registration-country-option-3", "Switzerland")]

/-- Case-insensitive containment of `needle` in `text`. -/
def containsIgnoreCase (needle text : String) : Bool :=
  (text.toList.map Char.toLower).tails.any
    (fun t => (needle.toList.map Char.toLower).isPrefixOf t)

/-- Index of the first option whose text contains the typed text. -/
def firstMatch (typed : String) : Option Nat :=
  countryOptions.findIdx? (fun o => containsIgnoreCase typed o.2)

/-- The country control of the stub page. -/
def countryInput : Locator :=
  Locator.locator "#registration-country-input"

/-- The stub driver.  Every primitive on the country control times out while
the control is not interactable.  `fill` replaces the text and closes the
highlight, ArrowDown highlights the first matching option, Enter commits the
highlighted option (if any) and writes its text into the control. -/
def comboDriver : Driver Combo where
  fill target value st :=
    if target = countryInput ∧ st.interactable = true then
      Except.ok { st with text := value, active := none }
    else Except.error "Timeout exceeded"
  click target st :=
    if target = countryInput ∧ st.interactable = true then Except.ok st
    else Except.error "Timeout exceeded"
  check _ _ _ := Except.error "Timeout exceeded"
  press key st :=
    if key = "ArrowDown" then Except.ok { st with active := firstMatch st.text }
    else if key = "Enter" then
      match st.active.bind (fun i => countryOptions[i]?) with
      | some o => Except.ok { st with text := o.2, active := none, committed := some o.2 }
      | none => Except.ok st
    else Except.ok st
  getAttribute target name st :=
    if target = countryInput ∧ st.interactable = true then
      if name = "aria-activedescendant" then
        Except.ok ((st.active.bind (fun i => countryOptions[i]?)).map Prod.fst, st)
      else Except.ok (none, st)
    else Except.error "Timeout exceeded"
  textContent target st :=
    match countryOptions.find? (fun o => target = Locator.locator ("#" ++ o.1)) with
    | some o => Except.ok (some o.2, st)
    | none => Except.error "Timeout exceeded"
  inputValue target st :=
    if target = countryInput ∧ st.interactable = true then Except.ok (st.text, st)
    else Except.error "Timeout exceeded"

/-- The stub page freshly loaded: empty, interactable control, nothing committed. -/
def freshCombo : Combo :=
  ⟨true, "", none, none⟩

/-- The stub page with a control that never becomes interactable. -/
def blockedCombo : Combo :=
  ⟨false, "", none, none⟩

/-- The page object over the stub driver. -/
def stubPage : SignUpUserPage Combo :=
  SignUpUserPage.new comboDriver

open SignUpUserPage

/-! ## Rounding and index bounds -/

theorem excessBits_le (k : Nat) : ∀ (fuel p : Nat), p < 2 ^ (53 + k) → excessBits fuel p ≤ k := by
  induction k with
  | zero =>
    intro fuel p hp
    cases fuel with
    | zero => simp [excessBits]
    | succ f =>
      norm_num at hp
      simp [excessBits, hp]
  | succ k ih =>
    intro fuel p hp
    cases fuel with
    | zero => simp [excessBits]
    | succ f =>
      unfold excessBits
      split
      · omega
      · have : p / 2 < 2 ^ (53 + k) := by
          have h2 : (2:Nat) ^ (53 + (k + 1)) = 2 * 2 ^ (53 + k) := by
            rw [← Nat.add_assoc, Nat.pow_succ]; ring
          omega
        have := ih f (p / 2) this
        omega

theorem excessBits_pos (fuel p : Nat) (hp : 2 ^ 53 ≤ p) : 1 ≤ excessBits (fuel + 1) p := by
  unfold excessBits
  norm_num at hp ⊢
  split <;> omega

theorem floor_times_lt (x : UnitDouble) (n : Nat) (hn : n = 10 ∨ n = 24 ∨ n = 26) :
    Math.floor (x.times n) < n := by
  obtain ⟨m, e, hm, he, he'⟩ := x
  simp only [Math.floor, UnitDouble.times]
  obtain ⟨t, ht, hE⟩ : ∃ t, 1 ≤ t ∧ 2 ^ e = 9007199254740992 * t := by
    refine ⟨2 ^ (e - 53), Nat.one_le_two_pow, ?_⟩
    have : e = 53 + (e - 53) := by omega
    conv_lhs => rw [this, Nat.pow_add]
  have hpos : 0 < 2 ^ e := Nat.two_pow_pos e
  rw [Nat.div_lt_iff_lt_mul hpos, hE]
  norm_num at hm
  unfold roundToDouble
  split
  · rcases hn with rfl | rfl | rfl <;> omega
  · rename_i hbig
    norm_num at hbig
    have hne : m * n ≠ 0 := by omega
    obtain ⟨f, hf⟩ : ∃ f, m * n = f + 1 := ⟨m * n - 1, by omega⟩
    have hs1 : 1 ≤ excessBits (m * n) (m * n) := by
      rw [show excessBits (m * n) (m * n) = excessBits (f + 1) (m * n) by rw [hf]]
      exact excessBits_pos f _ (by norm_num; omega)
    have hs2 : excessBits (m * n) (m * n) ≤ (if n = 10 then 4 else 5) := by
      rcases hn with rfl | rfl | rfl
      · exact excessBits_le 4 _ _ (by norm_num; omega)
      · exact excessBits_le 5 _ _ (by norm_num; omega)
      · exact excessBits_le 5 _ _ (by norm_num; omega)
    generalize excessBits (m * n) (m * n) = s at hs1 hs2
    simp only []
    rcases hn with rfl | rfl | rfl
    · simp only [if_true] at hs2
      interval_cases s <;> norm_num <;> split <;> omega
    · norm_num at hs2
      interval_cases s <;> norm_num <;> split <;> omega
    · norm_num at hs2
      interval_cases s <;> norm_num <;> split <;> omega

/-! ## The shape of a generated password -/

theorem charAt_uppercase (i : Nat) (h : i < 26) :
    ∃ c, charAt uppercaseLetters i = some c ∧ c.isUpper = true := by
  interval_cases i <;> exact ⟨_, rfl, by decide⟩

theorem charAt_lowercase (i : Nat) (h : i < 26) :
    ∃ c, charAt lowercaseLetters i = some c ∧ c.isLower = true := by
  interval_cases i <;> exact ⟨_, rfl, by decide⟩

theorem charAt_numbers (i : Nat) (h : i < 10) :
    ∃ c, charAt numbers i = some c ∧ c.isDigit = true := by
  interval_cases i <;> exact ⟨_, rfl, by decide⟩

theorem charAt_special (i : Nat) (h : i < 24) :
    ∃ c, charAt specialCharacters i = some c ∧ c ∈ specialCharacters.toList := by
  interval_cases i <;> exact ⟨_, rfl, by decide⟩

theorem appendRandomChar_uppercase (p : String) (r : RandomSource) :
    ∃ c, c.isUpper = true ∧
      appendRandomChar uppercaseLetters (p, r) = (p.push c, fun k => r (k + 1)) := by
  obtain ⟨c, hc, hu⟩ := charAt_uppercase _ (floor_times_lt (r 0) 26 (by simp))
  refine ⟨c, hu, ?_⟩
  have hlen : uppercaseLetters.length = 26 := by decide
  simp only [appendRandomChar, Math.random, hlen, hc, appendJs]

theorem appendRandomChar_lowercase (p : String) (r : RandomSource) :
    ∃ c, c.isLower = true ∧
      appendRandomChar lowercaseLetters (p, r) = (p.push c, fun k => r (k + 1)) := by
  obtain ⟨c, hc, hu⟩ := charAt_lowercase _ (floor_times_lt (r 0) 26 (by simp))
  refine ⟨c, hu, ?_⟩
  have hlen : lowercaseLetters.length = 26 := by decide
  simp only [appendRandomChar, Math.random, hlen, hc, appendJs]

theorem appendRandomChar_numbers (p : String) (r : RandomSource) :
    ∃ c, c.isDigit = true ∧
      appendRandomChar numbers (p, r) = (p.push c, fun k => r (k + 1)) := by
  obtain ⟨c, hc, hu⟩ := charAt_numbers _ (floor_times_lt (r 0) 10 (by simp))
  refine ⟨c, hu, ?_⟩
  have hlen : numbers.length = 10 := by decide
  simp only [appendRandomChar, Math.random, hlen, hc, appendJs]

theorem appendRandomChar_special (p : String) (r : RandomSource) :
    ∃ c, c ∈ specialCharacters.toList ∧
      appendRandomChar specialCharacters (p, r) = (p.push c, fun k => r (k + 1)) := by
  obtain ⟨c, hc, hu⟩ := charAt_special _ (floor_times_lt (r 0) 24 (by simp))
  refine ⟨c, hu, ?_⟩
  have hlen : specialCharacters.length = 24 := by decide
  simp only [appendRandomChar, Math.random, hlen, hc, appendJs]

theorem appendGroup_spec (st : String × RandomSource) :
    ∃ u l d s, u.isUpper = true ∧ l.isLower = true ∧ d.isDigit = true ∧
      s ∈ specialCharacters.toList ∧
      (appendGroup st).1 = ⟨st.1.data ++ [u, l, d, s]⟩ ∧
      (appendGroup st).2 = fun k => st.2 (k + 4) := by
  obtain ⟨p, r⟩ := st
  obtain ⟨u, hu, e1⟩ := appendRandomChar_uppercase p r
  obtain ⟨l, hl, e2⟩ := appendRandomChar_lowercase (p.push u) (fun k => r (k + 1))
  obtain ⟨d, hd, e3⟩ :=
    appendRandomChar_numbers ((p.push u).push l) (fun k => r (k + 1 + 1))
  obtain ⟨s, hs, e4⟩ :=
    appendRandomChar_special (((p.push u).push l).push d) (fun k => r (k + 1 + 1 + 1))
  refine ⟨u, l, d, s, hu, hl, hd, hs, ?_, ?_⟩
  · simp only [appendGroup, e1, e2, e3, e4]
    apply String.ext
    simp [String.data_push]
  · simp only [appendGroup, e1, e2, e3, e4]

theorem generateRandomPassword_shape (passwordLength : JsValue) (random : RandomSource) :
    ∃ u0 l0 d0 s0 u1 l1 d1 s1 u2 l2 d2 s2 : Char,
      (u0.isUpper = true ∧ l0.isLower = true ∧ d0.isDigit = true ∧
        s0 ∈ specialCharacters.toList) ∧
      (u1.isUpper = true ∧ l1.isLower = true ∧ d1.isDigit = true ∧
        s1 ∈ specialCharacters.toList) ∧
      (u2.isUpper = true ∧ l2.isLower = true ∧ d2.isDigit = true ∧
        s2 ∈ specialCharacters.toList) ∧
      (generateRandomPassword passwordLength random).toList =
        [u0, l0, d0, s0, u1, l1, d1, s1, u2, l2, d2, s2] := by
  obtain ⟨u0, l0, d0, s0, a1, a2, a3, a4, e0, r0⟩ := appendGroup_spec ("", random)
  obtain ⟨u1, l1, d1, s1, b1, b2, b3, b4, e1, r1⟩ := appendGroup_spec (appendGroup ("", random))
  obtain ⟨u2, l2, d2, s2, c1, c2, c3, c4, e2, r2⟩ :=
    appendGroup_spec (appendGroup (appendGroup ("", random)))
  refine ⟨u0, l0, d0, s0, u1, l1, d1, s1, u2, l2, d2, s2, ⟨a1, a2, a3, a4⟩, ⟨b1, b2, b3, b4⟩,
    ⟨c1, c2, c3, c4⟩, ?_⟩
  have : generateRandomPassword passwordLength random =
      (appendGroup (appendGroup (appendGroup ("", random)))).1 := rfl
  rw [this, e2, e1, e0]
  simp

/-! ## Claims about `generateRandomPassword` -/

/-- C1: for every `passwordLength` argument and every sequence of random draws
in `[0,1)`, the password returned by `generateRandomPassword` contains at least
one uppercase letter, one lowercase letter, one digit and one character of the
special set. -/
theorem generateRandomPassword_contains_every_class (passwordLength : JsValue)
    (random : RandomSource) :
    (∃ c ∈ (generateRandomPassword passwordLength random).toList, c.isUpper = true) ∧
    (∃ c ∈ (generateRandomPassword passwordLength random).toList, c.isLower = true) ∧
    (∃ c ∈ (generateRandomPassword passwordLength random).toList, c.isDigit = true) ∧
    (∃ c ∈ (generateRandomPassword passwordLength random).toList,
      c ∈ specialCharacters.toList) := by
  obtain ⟨u0, l0, d0, s0, u1, l1, d1, s1, u2, l2, d2, s2, ⟨hu, hl, hd, hs⟩, -, -, h⟩ :=
    generateRandomPassword_shape passwordLength random
  rw [h]
  exact ⟨⟨u0, by simp, hu⟩, ⟨l0, by simp, hl⟩, ⟨d0, by simp, hd⟩, ⟨s0, by simp, hs⟩⟩

/-- C2: for every `passwordLength` argument and every sequence of random draws,
`generateRandomPassword` returns a string of length exactly 12, and for the same
draws the result is the same for any two arguments. -/
theorem generateRandomPassword_length_twelve_ignores_argument
    (passwordLength other : JsValue) (random : RandomSource) :
    (generateRandomPassword passwordLength random).length = 12 ∧
    generateRandomPassword passwordLength random = generateRandomPassword other random := by
  obtain ⟨u0, l0, d0, s0, u1, l1, d1, s1, u2, l2, d2, s2, -, -, -, h⟩ :=
    generateRandomPassword_shape passwordLength random
  refine ⟨?_, rfl⟩
  have : (generateRandomPassword passwordLength random).length =
      (generateRandomPassword passwordLength random).toList.length := rfl
  rw [this, h]
  rfl

/-- C3 (the code at a failing input): asked for a password of length 8, with the
sample draws, `generateRandomPassword` returns the 12 characters `Jq9&Ow1+Tb3|`,
so the length of the result is not the requested one. -/
theorem generateRandomPassword_length_not_requested :
    generateRandomPassword (JsValue.number 8) sampleRandom = "Jq9&Ow1+Tb3|" ∧
    (generateRandomPassword (JsValue.number 8) sampleRandom).length ≠ 8 := by
  decide

/-- C10: for every sequence of random draws and every position `i` from 0 to 11,
the character at position `i` of the password is an uppercase letter when
`i mod 4 = 0`, a lowercase letter when `i mod 4 = 1`, a digit when `i mod 4 = 2`
and a character of the special set when `i mod 4 = 3`; and for every draw `x`
each index `floor (x * n)` is within the bounds of its class string. -/
theorem generateRandomPassword_class_at_position (passwordLength : JsValue)
    (random : RandomSource) (i : Nat) (hi : i < 12) :
    (∃ c, charAt (generateRandomPassword passwordLength random) i = some c ∧
      (i % 4 = 0 → c.isUpper = true) ∧ (i % 4 = 1 → c.isLower = true) ∧
      (i % 4 = 2 → c.isDigit = true) ∧ (i % 4 = 3 → c ∈ specialCharacters.toList)) ∧
    (∀ x : UnitDouble,
      Math.floor (x.times uppercaseLetters.length) < uppercaseLetters.length ∧
      Math.floor (x.times lowercaseLetters.length) < lowercaseLetters.length ∧
      Math.floor (x.times numbers.length) < numbers.length ∧
      Math.floor (x.times specialCharacters.length) < specialCharacters.length) := by
  constructor
  · obtain ⟨u0, l0, d0, s0, u1, l1, d1, s1, u2, l2, d2, s2, ⟨a1, a2, a3, a4⟩, ⟨b1, b2, b3, b4⟩,
      ⟨c1, c2, c3, c4⟩, h⟩ := generateRandomPassword_shape passwordLength random
    unfold charAt
    rw [h]
    interval_cases i <;> simp [*] <;> first | exact a4 | exact b4 | exact c4
  · intro x
    have h26 : uppercaseLetters.length = 26 := by decide
    have h26' : lowercaseLetters.length = 26 := by decide
    have h10 : numbers.length = 10 := by decide
    have h24 : specialCharacters.length = 24 := by decide
    rw [h26, h26', h10, h24]
    exact ⟨floor_times_lt x 26 (by simp), floor_times_lt x 26 (by simp),
      floor_times_lt x 10 (by simp), floor_times_lt x 24 (by simp)⟩

/-- C10 at a concrete input: position 7 of the password built from the sample
draws. -/
theorem generateRandomPassword_class_at_position_witness :
    (∃ c, charAt (generateRandomPassword JsValue.undefined sampleRandom) 7 = some c ∧
      (7 % 4 = 0 → c.isUpper = true) ∧ (7 % 4 = 1 → c.isLower = true) ∧
      (7 % 4 = 2 → c.isDigit = true) ∧ (7 % 4 = 3 → c ∈ specialCharacters.toList)) ∧
    (∀ x : UnitDouble,
      Math.floor (x.times uppercaseLetters.length) < uppercaseLetters.length ∧
      Math.floor (x.times lowercaseLetters.length) < lowercaseLetters.length ∧
      Math.floor (x.times numbers.length) < numbers.length ∧
      Math.floor (x.times specialCharacters.length) < specialCharacters.length) :=
  generateRandomPassword_class_at_position JsValue.undefined sampleRandom 7 (by decide)

/-! ## Case analysis of the two country methods -/

/-- Every run of `searchNewCountryValue` from a fresh observation is one of
eight runs, according to the first driver primitive that rejects (if any) and
to the truthiness of the attribute read. -/
theorem searchNewCountryValue_cases {σ : Type} (self : SignUpUserPage σ) (country : String)
    (st : σ) (P : Except PageError (Option String) × Session σ → Prop)
    (hclick : ∀ e, self.page.click self.countryDropDown st = Except.error e →
      P (Except.error (PageError.driver e), ⟨st, [(Call.click self.countryDropDown, st)]⟩))
    (hclear : ∀ s1 e, self.page.click self.countryDropDown st = Except.ok s1 →
      self.page.fill self.countryDropDown "" s1 = Except.error e →
      P (Except.error (PageError.driver e),
        ⟨s1, [(Call.click self.countryDropDown, st), (Call.fill self.countryDropDown "", s1)]⟩))
    (hfill : ∀ s1 s2 e, self.page.click self.countryDropDown st = Except.ok s1 →
      self.page.fill self.countryDropDown "" s1 = Except.ok s2 →
      self.page.fill self.countryDropDown country s2 = Except.error e →
      P (Except.error (PageError.driver e),
        ⟨s2, [(Call.click self.countryDropDown, st), (Call.fill self.countryDropDown "", s1),
          (Call.fill self.countryDropDown country, s2)]⟩))
    (hdown : ∀ s1 s2 s3 e, self.page.click self.countryDropDown st = Except.ok s1 →
      self.page.fill self.countryDropDown "" s1 = Except.ok s2 →
      self.page.fill self.countryDropDown country s2 = Except.ok s3 →
      self.page.press "ArrowDown" s3 = Except.error e →
      P (Except.error (PageError.driver e),
        ⟨s3, [(Call.click self.countryDropDown, st), (Call.fill self.countryDropDown "", s1),
          (Call.fill self.countryDropDown country, s2), (Call.press "ArrowDown", s3)]⟩))
    (hattr : ∀ s1 s2 s3 s4 e, self.page.click self.countryDropDown st = Except.ok s1 →
      self.page.fill self.countryDropDown "" s1 = Except.ok s2 →
      self.page.fill self.countryDropDown country s2 = Except.ok s3 →
      self.page.press "ArrowDown" s3 = Except.ok s4 →
      self.page.getAttribute self.countryDropDown "aria-activedescendant" s4 = Except.error e →
      P (Except.error (PageError.driver e),
        ⟨s4, [(Call.click self.countryDropDown, st), (Call.fill self.countryDropDown "", s1),
          (Call.fill self.countryDropDown country, s2), (Call.press "ArrowDown", s3),
          (Call.getAttribute self.countryDropDown "aria-activedescendant", s4)]⟩))
    (hnone : ∀ s1 s2 s3 s4 s5 aria, self.page.click self.countryDropDown st = Except.ok s1 →
      self.page.fill self.countryDropDown "" s1 = Except.ok s2 →
      self.page.fill self.countryDropDown country s2 = Except.ok s3 →
      self.page.press "ArrowDown" s3 = Except.ok s4 →
      self.page.getAttribute self.countryDropDown "aria-activedescendant" s4
        = Except.ok (aria, s5) →
      truthy aria = false →
      P (Except.error (PageError.thrown "aria-activedescendant attribute is not set"),
        ⟨s5, [(Call.click self.countryDropDown, st), (Call.fill self.countryDropDown "", s1),
          (Call.fill self.countryDropDown country, s2), (Call.press "ArrowDown", s3),
          (Call.getAttribute self.countryDropDown "aria-activedescendant", s4)]⟩))
    (hlookup : ∀ s1 s2 s3 s4 s5 aria e, self.page.click self.countryDropDown st = Except.ok s1 →
      self.page.fill self.countryDropDown "" s1 = Except.ok s2 →
      self.page.fill self.countryDropDown country s2 = Except.ok s3 →
      self.page.press "ArrowDown" s3 = Except.ok s4 →
      self.page.getAttribute self.countryDropDown "aria-activedescendant" s4
        = Except.ok (aria, s5) →
      truthy aria = true →
      self.page.textContent (Locator.locator ("#" ++ interpolate aria)) s5 = Except.error e →
      P (Except.error (PageError.driver e),
        ⟨s5, [(Call.click self.countryDropDown, st), (Call.fill self.countryDropDown "", s1),
          (Call.fill self.countryDropDown country, s2), (Call.press "ArrowDown", s3),
          (Call.getAttribute self.countryDropDown "aria-activedescendant", s4),
          (Call.textContent (Locator.locator ("#" ++ interpolate aria)), s5)]⟩))
    (hsome : ∀ s1 s2 s3 s4 s5 s6 aria text,
      self.page.click self.countryDropDown st = Except.ok s1 →
      self.page.fill self.countryDropDown "" s1 = Except.ok s2 →
      self.page.fill self.countryDropDown country s2 = Except.ok s3 →
      self.page.press "ArrowDown" s3 = Except.ok s4 →
      self.page.getAttribute self.countryDropDown "aria-activedescendant" s4
        = Except.ok (aria, s5) →
      truthy aria = true →
      self.page.textContent (Locator.locator ("#" ++ interpolate aria)) s5
        = Except.ok (text, s6) →
      P (Except.ok text,
        ⟨s6, [(Call.click self.countryDropDown, st), (Call.fill self.countryDropDown "", s1),
          (Call.fill self.countryDropDown country, s2), (Call.press "ArrowDown", s3),
          (Call.getAttribute self.countryDropDown "aria-activedescendant", s4),
          (Call.textContent (Locator.locator ("#" ++ interpolate aria)), s5)]⟩)) :
    P (self.searchNewCountryValue country (Session.start st)) := by
  rcases h1 : self.page.click self.countryDropDown st with e1 | s1
  · have := hclick e1 h1
    simpa [searchNewCountryValue, bind, Driver.clickAsync, issue, Session.start, Except.map, h1]
      using this
  rcases h2 : self.page.fill self.countryDropDown "" s1 with e2 | s2
  · have := hclear s1 e2 h1 h2
    simpa [searchNewCountryValue, bind, Driver.clickAsync, Driver.fillAsync, issue,
      Session.start, Except.map, h1, h2] using this
  rcases h3 : self.page.fill self.countryDropDown country s2 with e3 | s3
  · have := hfill s1 s2 e3 h1 h2 h3
    simpa [searchNewCountryValue, bind, Driver.clickAsync, Driver.fillAsync, issue,
      Session.start, Except.map, h1, h2, h3] using this
  rcases h4 : self.page.press "ArrowDown" s3 with e4 | s4
  · have := hdown s1 s2 s3 e4 h1 h2 h3 h4
    simpa [searchNewCountryValue, bind, Driver.clickAsync, Driver.fillAsync, Driver.pressAsync,
      issue, Session.start, Except.map, h1, h2, h3, h4] using this
  rcases h5 : self.page.getAttribute self.countryDropDown "aria-activedescendant" s4
    with e5 | ⟨aria, s5⟩
  · have := hattr s1 s2 s3 s4 e5 h1 h2 h3 h4 h5
    simpa [searchNewCountryValue, bind, Driver.clickAsync, Driver.fillAsync, Driver.pressAsync,
      Driver.getAttributeAsync, issue, Session.start, Except.map, h1, h2, h3, h4, h5] using this
  by_cases ht : truthy aria = true
  · rcases h6 : self.page.textContent (Locator.locator ("#" ++ interpolate aria)) s5
      with e6 | ⟨text, s6⟩
    · have := hlookup s1 s2 s3 s4 s5 aria e6 h1 h2 h3 h4 h5 ht h6
      simpa [searchNewCountryValue, bind, Driver.clickAsync, Driver.fillAsync,
        Driver.pressAsync, Driver.getAttributeAsync, Driver.textContentAsync, issue,
        Session.start, Except.map, h1, h2, h3, h4, h5, h6, ht] using this
    · have := hsome s1 s2 s3 s4 s5 s6 aria text h1 h2 h3 h4 h5 ht h6
      simpa [searchNewCountryValue, bind, Driver.clickAsync, Driver.fillAsync,
        Driver.pressAsync, Driver.getAttributeAsync, Driver.textContentAsync, issue,
        Session.start, Except.map, h1, h2, h3, h4, h5, h6, ht] using this
  · have hf : truthy aria = false := by simpa using ht
    have := hnone s1 s2 s3 s4 s5 aria h1 h2 h3 h4 h5 hf
    simpa [searchNewCountryValue, bind, Driver.clickAsync, Driver.fillAsync, Driver.pressAsync,
      Driver.getAttributeAsync, issue, Session.start, Except.map, throwNew, h1, h2, h3, h4, h5,
      hf] using this

/-- Every run of `selectNewCountryValue` from a fresh observation is one of
seven runs, according to the first driver primitive that rejects (if any). -/
theorem selectNewCountryValue_cases {σ : Type} (self : SignUpUserPage σ) (country : String)
    (st : σ) (P : Except PageError String × Session σ → Prop)
    (hclick : ∀ e, self.page.click self.countryDropDown st = Except.error e →
      P (Except.error (PageError.driver e), ⟨st, [(Call.click self.countryDropDown, st)]⟩))
    (hclear : ∀ s1 e, self.page.click self.countryDropDown st = Except.ok s1 →
      self.page.fill self.countryDropDown "" s1 = Except.error e →
      P (Except.error (PageError.driver e),
        ⟨s1, [(Call.click self.countryDropDown, st), (Call.fill self.countryDropDown "", s1)]⟩))
    (hfill : ∀ s1 s2 e, self.page.click self.countryDropDown st = Except.ok s1 →
      self.page.fill self.countryDropDown "" s1 = Except.ok s2 →
      self.page.fill self.countryDropDown country s2 = Except.error e →
      P (Except.error (PageError.driver e),
        ⟨s2, [(Call.click self.countryDropDown, st), (Call.fill self.countryDropDown "", s1),
          (Call.fill self.countryDropDown country, s2)]⟩))
    (hdown : ∀ s1 s2 s3 e, self.page.click self.countryDropDown st = Except.ok s1 →
      self.page.fill self.countryDropDown "" s1 = Except.ok s2 →
      self.page.fill self.countryDropDown country s2 = Except.ok s3 →
      self.page.press "ArrowDown" s3 = Except.error e →
      P (Except.error (PageError.driver e),
        ⟨s3, [(Call.click self.countryDropDown, st), (Call.fill self.countryDropDown "", s1),
          (Call.fill self.countryDropDown country, s2), (Call.press "ArrowDown", s3)]⟩))
    (henter : ∀ s1 s2 s3 s4 e, self.page.click self.countryDropDown st = Except.ok s1 →
      self.page.fill self.countryDropDown "" s1 = Except.ok s2 →
      self.page.fill self.countryDropDown country s2 = Except.ok s3 →
      self.page.press "ArrowDown" s3 = Except.ok s4 →
      self.page.press "Enter" s4 = Except.error e →
      P (Except.error (PageError.driver e),
        ⟨s4, [(Call.click self.countryDropDown, st), (Call.fill self.countryDropDown "", s1),
          (Call.fill self.countryDropDown country, s2), (Call.press "ArrowDown", s3),
          (Call.press "Enter", s4)]⟩))
    (hread : ∀ s1 s2 s3 s4 s5 e, self.page.click self.countryDropDown st = Except.ok s1 →
      self.page.fill self.countryDropDown "" s1 = Except.ok s2 →
      self.page.fill self.countryDropDown country s2 = Except.ok s3 →
      self.page.press "ArrowDown" s3 = Except.ok s4 →
      self.page.press "Enter" s4 = Except.ok s5 →
      self.page.inputValue self.countryDropDown s5 = Except.error e →
      P (Except.error (PageError.driver e),
        ⟨s5, [(Call.click self.countryDropDown, st), (Call.fill self.countryDropDown "", s1),
          (Call.fill self.countryDropDown country, s2), (Call.press "ArrowDown", s3),
          (Call.press "Enter", s4), (Call.inputValue self.countryDropDown, s5)]⟩))
    (hvalue : ∀ s1 s2 s3 s4 s5 s6 value, self.page.click self.countryDropDown st = Except.ok s1 →
      self.page.fill self.countryDropDown "" s1 = Except.ok s2 →
      self.page.fill self.countryDropDown country s2 = Except.ok s3 →
      self.page.press "ArrowDown" s3 = Except.ok s4 →
      self.page.press "Enter" s4 = Except.ok s5 →
      self.page.inputValue self.countryDropDown s5 = Except.ok (value, s6) →
      P (Except.ok value,
        ⟨s6, [(Call.click self.countryDropDown, st), (Call.fill self.countryDropDown "", s1),
          (Call.fill self.countryDropDown country, s2), (Call.press "ArrowDown", s3),
          (Call.press "Enter", s4), (Call.inputValue self.countryDropDown, s5)]⟩)) :
    P (self.selectNewCountryValue country (Session.start st)) := by
  rcases h1 : self.page.click self.countryDropDown st with e1 | s1
  · have := hclick e1 h1
    simpa [selectNewCountryValue, bind, Driver.clickAsync, issue, Session.start, Except.map, h1]
      using this
  rcases h2 : self.page.fill self.countryDropDown "" s1 with e2 | s2
  · have := hclear s1 e2 h1 h2
    simpa [selectNewCountryValue, bind, Driver.clickAsync, Driver.fillAsync, issue,
      Session.start, Except.map, h1, h2] using this
  rcases h3 : self.page.fill self.countryDropDown country s2 with e3 | s3
  · have := hfill s1 s2 e3 h1 h2 h3
    simpa [selectNewCountryValue, bind, Driver.clickAsync, Driver.fillAsync, issue,
      Session.start, Except.map, h1, h2, h3] using this
  rcases h4 : self.page.press "ArrowDown" s3 with e4 | s4
  · have := hdown s1 s2 s3 e4 h1 h2 h3 h4
    simpa [selectNewCountryValue, bind, Driver.clickAsync, Driver.fillAsync, Driver.pressAsync,
      issue, Session.start, Except.map, h1, h2, h3, h4] using this
  rcases h5 : self.page.press "Enter" s4 with e5 | s5
  · have := henter s1 s2 s3 s4 e5 h1 h2 h3 h4 h5
    simpa [selectNewCountryValue, bind, Driver.clickAsync, Driver.fillAsync, Driver.pressAsync,
      issue, Session.start, Except.map, h1, h2, h3, h4, h5] using this
  rcases h6 : self.page.inputValue self.countryDropDown s5 with e6 | ⟨value, s6⟩
  · have := hread s1 s2 s3 s4 s5 e6 h1 h2 h3 h4 h5 h6
    simpa [selectNewCountryValue, bind, Driver.clickAsync, Driver.fillAsync, Driver.pressAsync,
      Driver.inputValueAsync, issue, Session.start, Except.map, h1, h2, h3, h4, h5, h6]
      using this
  · have := hvalue s1 s2 s3 s4 s5 s6 value h1 h2 h3 h4 h5 h6
    simpa [selectNewCountryValue, bind, Driver.clickAsync, Driver.fillAsync, Driver.pressAsync,
      Driver.inputValueAsync, issue, Session.start, Except.map, h1, h2, h3, h4, h5, h6]
      using this

/-! ## Claims about the country methods -/

/-- C4: when the driver primitives it calls succeed, `searchNewCountryValue` fails with an
error if and only if the `aria-activedescendant` attribute read after the
ArrowDown key event is absent or empty; when it fails, it is by the thrown
error, no value is returned, and the calls issued are the five up to the
attribute read, so no option lookup is performed. -/
theorem searchNewCountryValue_fails_iff_no_active_descendant {σ : Type}
    (self : SignUpUserPage σ) (country : String) (st s1 s2 s3 s4 s5 : σ) (aria : Option String)
    (hclick : self.page.click self.countryDropDown st = Except.ok s1)
    (hclear : self.page.fill self.countryDropDown "" s1 = Except.ok s2)
    (hfill : self.page.fill self.countryDropDown country s2 = Except.ok s3)
    (hdown : self.page.press "ArrowDown" s3 = Except.ok s4)
    (haria : self.page.getAttribute self.countryDropDown "aria-activedescendant" s4
      = Except.ok (aria, s5))
    (htext : truthy aria = true →
      ∃ r, self.page.textContent (Locator.locator ("#" ++ interpolate aria)) s5 = Except.ok r) :
    ((∃ e, (self.searchNewCountryValue country (Session.start st)).1 = Except.error e) ↔
      (aria = none ∨ aria = some "")) ∧
    ((aria = none ∨ aria = some "") →
      self.searchNewCountryValue country (Session.start st) =
        (Except.error (PageError.thrown "aria-activedescendant attribute is not set"),
          ⟨s5, [(Call.click self.countryDropDown, st),
                (Call.fill self.countryDropDown "", s1),
                (Call.fill self.countryDropDown country, s2),
                (Call.press "ArrowDown", s3),
                (Call.getAttribute self.countryDropDown "aria-activedescendant", s4)]⟩)) := by
  have hfalsy : (aria = none ∨ aria = some "") ↔ truthy aria = false := by
    cases aria with
    | none => simp [truthy]
    | some a => simp [truthy]
  by_cases ht : truthy aria = true
  · obtain ⟨⟨text, s6⟩, h6⟩ := htext ht
    have hrun : self.searchNewCountryValue country (Session.start st) =
        (Except.ok text,
          ⟨s6, [(Call.click self.countryDropDown, st),
                (Call.fill self.countryDropDown "", s1),
                (Call.fill self.countryDropDown country, s2),
                (Call.press "ArrowDown", s3),
                (Call.getAttribute self.countryDropDown "aria-activedescendant", s4),
                (Call.textContent (Locator.locator ("#" ++ interpolate aria)), s5)]⟩) := by
      simp [searchNewCountryValue, bind, Driver.clickAsync, Driver.fillAsync, Driver.pressAsync,
        Driver.getAttributeAsync, Driver.textContentAsync, issue, Session.start, Except.map,
        hclick, hclear, hfill, hdown, haria, h6, ht]
    rw [hfalsy, hrun]
    simp [ht]
  · have hf : truthy aria = false := by simpa using ht
    have hrun : self.searchNewCountryValue country (Session.start st) =
        (Except.error (PageError.thrown "aria-activedescendant attribute is not set"),
          ⟨s5, [(Call.click self.countryDropDown, st),
                (Call.fill self.countryDropDown "", s1),
                (Call.fill self.countryDropDown country, s2),
                (Call.press "ArrowDown", s3),
                (Call.getAttribute self.countryDropDown "aria-activedescendant", s4)]⟩) := by
      simp [searchNewCountryValue, bind, Driver.clickAsync, Driver.fillAsync, Driver.pressAsync,
        Driver.getAttributeAsync, issue, Session.start, Except.map, throwNew,
        hclick, hclear, hfill, hdown, haria, hf]
    rw [hfalsy, hrun]
    simp [hf]

/-- C4 at a concrete input: on the stub page the query "zzz" matches no option,
the attribute is absent, and the run fails after five calls. -/
theorem searchNewCountryValue_fails_iff_no_active_descendant_witness :
    ((∃ e, (stubPage.searchNewCountryValue "zzz" (Session.start freshCombo)).1
        = Except.error e) ↔
      ((none : Option String) = none ∨ (none : Option String) = some "")) ∧
    (((none : Option String) = none ∨ (none : Option String) = some "") →
      stubPage.searchNewCountryValue "zzz" (Session.start freshCombo) =
        (Except.error (PageError.thrown "aria-activedescendant attribute is not set"),
          ⟨⟨true, "zzz", none, none⟩,
           [(Call.click stubPage.countryDropDown, freshCombo),
            (Call.fill stubPage.countryDropDown "", freshCombo),
            (Call.fill stubPage.countryDropDown "zzz", ⟨true, "", none, none⟩),
            (Call.press "ArrowDown", ⟨true, "zzz", none, none⟩),
            (Call.getAttribute stubPage.countryDropDown "aria-activedescendant",
              ⟨true, "zzz", none, none⟩)]⟩)) :=
  searchNewCountryValue_fails_iff_no_active_descendant stubPage "zzz" freshCombo freshCombo
    ⟨true, "", none, none⟩ ⟨true, "zzz", none, none⟩ ⟨true, "zzz", none, none⟩
    ⟨true, "zzz", none, none⟩ none rfl rfl rfl rfl rfl
    (fun h => absurd h (by decide))

/-- C5: when the attribute read after the ArrowDown key event is a non-empty
identifier `a`, `searchNewCountryValue` returns exactly the text content of the
element located by `#a`, after click, fill with the empty string, fill with the
unmodified query and one ArrowDown key press, in this order. -/
theorem searchNewCountryValue_returns_active_option_text {σ : Type}
    (self : SignUpUserPage σ) (country a : String) (st s1 s2 s3 s4 s5 s6 : σ)
    (text : Option String)
    (hclick : self.page.click self.countryDropDown st = Except.ok s1)
    (hclear : self.page.fill self.countryDropDown "" s1 = Except.ok s2)
    (hfill : self.page.fill self.countryDropDown country s2 = Except.ok s3)
    (hdown : self.page.press "ArrowDown" s3 = Except.ok s4)
    (haria : self.page.getAttribute self.countryDropDown "aria-activedescendant" s4
      = Except.ok (some a, s5))
    (ha : a ≠ "")
    (htext : self.page.textContent (Locator.locator ("#" ++ a)) s5 = Except.ok (text, s6)) :
    self.searchNewCountryValue country (Session.start st) =
      (Except.ok text,
        ⟨s6, [(Call.click self.countryDropDown, st),
              (Call.fill self.countryDropDown "", s1),
              (Call.fill self.countryDropDown country, s2),
              (Call.press "ArrowDown", s3),
              (Call.getAttribute self.countryDropDown "aria-activedescendant", s4),
              (Call.textContent (Locator.locator ("#" ++ a)), s5)]⟩) := by
  simp [searchNewCountryValue, bind, Driver.clickAsync, Driver.fillAsync, Driver.pressAsync,
    Driver.getAttributeAsync, Driver.textContentAsync, issue, Session.start, Except.map,
    hclick, hclear, hfill, hdown, haria, htext, truthy, ha, interpolate]

/-- C5 at the input of the test: on the stub page the query "sWe" highlights
the option whose text is "Sweden", and that text is returned. -/
theorem searchNewCountryValue_returns_active_option_text_witness :
    stubPage.searchNewCountryValue "sWe" (Session.start freshCombo) =
      (Except.ok (some "Sweden"),
        ⟨⟨true, "sWe", some 2, none⟩,
         [(Call.click stubPage.countryDropDown, freshCombo),
          (Call.fill stubPage.countryDropDown "", freshCombo),
          (Call.fill stubPage.countryDropDown "sWe", ⟨true, "", none, none⟩),
          (Call.press "ArrowDown", ⟨true, "sWe", none, none⟩),
          (Call.getAttribute stubPage.countryDropDown "aria-activedescendant",
            ⟨true, "sWe", some 2, none⟩),
          (Call.textContent (Locator.locator ("#" ++ "registration-country-option-2")),
            ⟨true, "sWe", some 2, none⟩)]⟩) :=
  searchNewCountryValue_returns_active_option_text stubPage "sWe"
    "registration-country-option-2" freshCombo freshCombo ⟨true, "", none, none⟩
    ⟨true, "sWe", none, none⟩ ⟨true, "sWe", some 2, none⟩ ⟨true, "sWe", some 2, none⟩
    ⟨true, "sWe", some 2, none⟩ (some "Sweden") rfl rfl rfl rfl rfl (by decide) rfl

/-- C6 (as stated, refuted): on the stub page the query "zzz" matches no option;
`selectNewCountryValue` presses Enter in a state where the active-descendant
reference is absent, and it never reads that reference. -/
theorem selectNewCountryValue_enter_without_reference :
    (Call.press "Enter", (⟨true, "zzz", none, none⟩ : Combo)) ∈
      (stubPage.selectNewCountryValue "zzz" (Session.start freshCombo)).2.history ∧
    comboDriver.getAttribute countryInput "aria-activedescendant" ⟨true, "zzz", none, none⟩
      = Except.ok (none, ⟨true, "zzz", none, none⟩) ∧
    ∀ c ∈ (stubPage.selectNewCountryValue "zzz" (Session.start freshCombo)).2.calls,
      ∀ target name, c ≠ Call.getAttribute target name := by
  refine ⟨?_, rfl, ?_⟩
  · have : (stubPage.selectNewCountryValue "zzz" (Session.start freshCombo)).2.history =
        [(Call.click countryInput, freshCombo),
         (Call.fill countryInput "", freshCombo),
         (Call.fill countryInput "zzz", ⟨true, "", none, none⟩),
         (Call.press "ArrowDown", ⟨true, "zzz", none, none⟩),
         (Call.press "Enter", ⟨true, "zzz", none, none⟩),
         (Call.inputValue countryInput, ⟨true, "zzz", none, none⟩)] := rfl
    rw [this]
    simp
  · have : (stubPage.selectNewCountryValue "zzz" (Session.start freshCombo)).2.calls =
        [Call.click countryInput, Call.fill countryInput "", Call.fill countryInput "zzz",
         Call.press "ArrowDown", Call.press "Enter", Call.inputValue countryInput] := rfl
    rw [this]
    simp

/-- C6 (amended): in every run of `selectNewCountryValue` the calls issued are an
initial part of click, fill with the empty string, fill with the query,
ArrowDown, Enter, input-value read; so the active-descendant reference is never
read, and Enter is issued only in the state that a successful ArrowDown key
event, issued earlier in the same run, has produced. -/
theorem selectNewCountryValue_enter_follows_arrowDown {σ : Type} (self : SignUpUserPage σ)
    (country : String) (st : σ) :
    (self.selectNewCountryValue country (Session.start st)).2.calls <+:
      [Call.click self.countryDropDown, Call.fill self.countryDropDown "",
       Call.fill self.countryDropDown country, Call.press "ArrowDown", Call.press "Enter",
       Call.inputValue self.countryDropDown] ∧
    (∀ c ∈ (self.selectNewCountryValue country (Session.start st)).2.calls,
      ∀ target name, c ≠ Call.getAttribute target name) ∧
    (∀ s4, (Call.press "Enter", s4) ∈
        (self.selectNewCountryValue country (Session.start st)).2.history →
      ∃ s3, (Call.press "ArrowDown", s3) ∈
          (self.selectNewCountryValue country (Session.start st)).2.history ∧
        self.page.press "ArrowDown" s3 = Except.ok s4) := by
  apply selectNewCountryValue_cases self country st
    (fun out => out.2.calls <+:
      [Call.click self.countryDropDown, Call.fill self.countryDropDown "",
       Call.fill self.countryDropDown country, Call.press "ArrowDown", Call.press "Enter",
       Call.inputValue self.countryDropDown] ∧
      (∀ c ∈ out.2.calls, ∀ target name, c ≠ Call.getAttribute target name) ∧
      (∀ s4, (Call.press "Enter", s4) ∈ out.2.history →
        ∃ s3, (Call.press "ArrowDown", s3) ∈ out.2.history ∧
          self.page.press "ArrowDown" s3 = Except.ok s4))
  · intro e _
    refine ⟨⟨_, rfl⟩, ?_, ?_⟩ <;> simp [Session.calls]
  · intro s1 e _ _
    refine ⟨⟨_, rfl⟩, ?_, ?_⟩ <;> simp [Session.calls]
  · intro s1 s2 e _ _ _
    refine ⟨⟨_, rfl⟩, ?_, ?_⟩ <;> simp [Session.calls]
  · intro s1 s2 s3 e _ _ _ _
    refine ⟨⟨_, rfl⟩, ?_, ?_⟩ <;> simp [Session.calls]
  · intro s1 s2 s3 s4 e _ _ _ h4 _
    refine ⟨⟨_, rfl⟩, ?_, ?_⟩ <;> simp [Session.calls, h4]
  · intro s1 s2 s3 s4 s5 e _ _ _ h4 _ _
    refine ⟨⟨_, rfl⟩, ?_, ?_⟩ <;> simp [Session.calls, h4]
  · intro s1 s2 s3 s4 s5 s6 value _ _ _ h4 _ _
    refine ⟨⟨_, rfl⟩, ?_, ?_⟩ <;> simp [Session.calls, h4]

/-- C7: when the driver primitives succeed, `selectNewCountryValue` returns
exactly the input value of the country control as read after the Enter key
event; the read is the last of the six calls click, fill with the empty string,
fill with the query, ArrowDown, Enter, input-value read, and neither the
active-descendant attribute nor an option element is consulted. -/
theorem selectNewCountryValue_returns_input_value {σ : Type} (self : SignUpUserPage σ)
    (country value : String) (st s1 s2 s3 s4 s5 s6 : σ)
    (hclick : self.page.click self.countryDropDown st = Except.ok s1)
    (hclear : self.page.fill self.countryDropDown "" s1 = Except.ok s2)
    (hfill : self.page.fill self.countryDropDown country s2 = Except.ok s3)
    (hdown : self.page.press "ArrowDown" s3 = Except.ok s4)
    (henter : self.page.press "Enter" s4 = Except.ok s5)
    (hvalue : self.page.inputValue self.countryDropDown s5 = Except.ok (value, s6)) :
    self.selectNewCountryValue country (Session.start st) =
      (Except.ok value,
        ⟨s6, [(Call.click self.countryDropDown, st),
              (Call.fill self.countryDropDown "", s1),
              (Call.fill self.countryDropDown country, s2),
              (Call.press "ArrowDown", s3),
              (Call.press "Enter", s4),
              (Call.inputValue self.countryDropDown, s5)]⟩) := by
  simp [selectNewCountryValue, bind, Driver.clickAsync, Driver.fillAsync, Driver.pressAsync,
    Driver.inputValueAsync, issue, Session.start, Except.map, hclick, hclear, hfill, hdown,
    henter, hvalue]

/-- C7 at a concrete input: on the stub page the query "Sweden" is committed and
the input value read back is "Sweden". -/
theorem selectNewCountryValue_returns_input_value_witness :
    stubPage.selectNewCountryValue "Sweden" (Session.start freshCombo) =
      (Except.ok "Sweden",
        ⟨⟨true, "Sweden", none, some "Sweden"⟩,
         [(Call.click stubPage.countryDropDown, freshCombo),
          (Call.fill stubPage.countryDropDown "", freshCombo),
          (Call.fill stubPage.countryDropDown "Sweden", ⟨true, "", none, none⟩),
          (Call.press "ArrowDown", ⟨true, "Sweden", none, none⟩),
          (Call.press "Enter", ⟨true, "Sweden", some 2, none⟩),
          (Call.inputValue stubPage.countryDropDown,
            ⟨true, "Sweden", none, some "Sweden"⟩)]⟩) :=
  selectNewCountryValue_returns_input_value stubPage "Sweden" "Sweden" freshCombo freshCombo
    ⟨true, "", none, none⟩ ⟨true, "Sweden", none, none⟩ ⟨true, "Sweden", some 2, none⟩
    ⟨true, "Sweden", none, some "Sweden"⟩ ⟨true, "Sweden", none, some "Sweden"⟩
    rfl rfl rfl rfl rfl rfl

/-- The stub driver meets the `fill` contract for the text of its control. -/
theorem comboDriver_fillContract : FillContract comboDriver countryInput Combo.text := by
  constructor
  · intro st st' h
    simp only [comboDriver] at h
    split at h
    · injection h with h
      rw [← h]
    · exact absurd h (by simp)
  · intro value st st' _ h
    simp only [comboDriver] at h
    split at h
    · injection h with h
      rw [← h]
    · exact absurd h (by simp)

/-- C8: for all queries `q1` and `q2` and every initial state of the control,
after `searchNewCountryValue q1` (however it ended) a following
`searchNewCountryValue q2` presses ArrowDown only in a state where the control
holds exactly `q2`, and it does press it there whenever its click and its two
fills succeed; and the first three calls of every run of
`searchNewCountryValue` and of `selectNewCountryValue` are an initial part of
click, fill with the empty string, fill with the query.  The text of the
control is related to `fill` by the contract `FillContract`. -/
theorem country_query_text_has_no_residue {σ : Type} (self : SignUpUserPage σ)
    (q1 q2 : String) (st : σ) (text : σ → String)
    (hcontract : FillContract self.page self.countryDropDown text) :
    (∀ s3, (Call.press "ArrowDown", s3) ∈
        (self.searchNewCountryValue q2 (Session.start
          (self.searchNewCountryValue q1 (Session.start st)).2.state)).2.history →
      text s3 = q2) ∧
    (∀ s1 s2 s3,
      self.page.click self.countryDropDown
        (self.searchNewCountryValue q1 (Session.start st)).2.state = Except.ok s1 →
      self.page.fill self.countryDropDown "" s1 = Except.ok s2 →
      self.page.fill self.countryDropDown q2 s2 = Except.ok s3 →
      (Call.press "ArrowDown", s3) ∈
        (self.searchNewCountryValue q2 (Session.start
          (self.searchNewCountryValue q1 (Session.start st)).2.state)).2.history) ∧
    (∀ (q : String) (s0 : σ),
      (self.searchNewCountryValue q (Session.start s0)).2.calls.take 3 <+:
        [Call.click self.countryDropDown, Call.fill self.countryDropDown "",
         Call.fill self.countryDropDown q] ∧
      (self.selectNewCountryValue q (Session.start s0)).2.calls.take 3 <+:
        [Call.click self.countryDropDown, Call.fill self.countryDropDown "",
         Call.fill self.countryDropDown q]) := by
  generalize (self.searchNewCountryValue q1 (Session.start st)).2.state = mid
  refine ⟨?_, ?_, ?_⟩
  · apply searchNewCountryValue_cases self q2 mid
      (fun out => ∀ s3, (Call.press "ArrowDown", s3) ∈ out.2.history → text s3 = q2)
    · intro e _ s3 h
      simp at h
    · intro s1 e _ _ s3 h
      simp at h
    · intro s1 s2 e _ _ _ s3 h
      simp at h
    · intro s1 s2 s3 e _ h2 h3 _ s h
      simp at h
      subst h
      exact hcontract.type _ _ _ (hcontract.clear _ _ h2) h3
    · intro s1 s2 s3 s4 e _ h2 h3 _ _ s h
      simp at h
      subst h
      exact hcontract.type _ _ _ (hcontract.clear _ _ h2) h3
    · intro s1 s2 s3 s4 s5 aria _ h2 h3 _ _ _ s h
      simp at h
      subst h
      exact hcontract.type _ _ _ (hcontract.clear _ _ h2) h3
    · intro s1 s2 s3 s4 s5 aria e _ h2 h3 _ _ _ _ s h
      simp at h
      subst h
      exact hcontract.type _ _ _ (hcontract.clear _ _ h2) h3
    · intro s1 s2 s3 s4 s5 s6 aria value _ h2 h3 _ _ _ _ s h
      simp at h
      subst h
      exact hcontract.type _ _ _ (hcontract.clear _ _ h2) h3
  · apply searchNewCountryValue_cases self q2 mid
      (fun out => ∀ s1 s2 s3, self.page.click self.countryDropDown mid = Except.ok s1 →
        self.page.fill self.countryDropDown "" s1 = Except.ok s2 →
        self.page.fill self.countryDropDown q2 s2 = Except.ok s3 →
        (Call.press "ArrowDown", s3) ∈ out.2.history)
    · intro e h1 t1 t2 t3 g1 _ _
      rw [h1] at g1
      exact absurd g1 (by simp)
    · intro s1 e h1 h2 t1 t2 t3 g1 g2 _
      rw [h1] at g1
      injection g1 with g1
      subst g1
      rw [h2] at g2
      exact absurd g2 (by simp)
    · intro s1 s2 e h1 h2 h3 t1 t2 t3 g1 g2 g3
      rw [h1] at g1
      injection g1 with g1
      subst g1
      rw [h2] at g2
      injection g2 with g2
      subst g2
      rw [h3] at g3
      exact absurd g3 (by simp)
    · intro s1 s2 s3 e h1 h2 h3 _ t1 t2 t3 g1 g2 g3
      rw [h1] at g1
      injection g1 with g1
      subst g1
      rw [h2] at g2
      injection g2 with g2
      subst g2
      rw [h3] at g3
      injection g3 with g3
      subst g3
      simp
    · intro s1 s2 s3 s4 e h1 h2 h3 _ _ t1 t2 t3 g1 g2 g3
      rw [h1] at g1
      injection g1 with g1
      subst g1
      rw [h2] at g2
      injection g2 with g2
      subst g2
      rw [h3] at g3
      injection g3 with g3
      subst g3
      simp
    · intro s1 s2 s3 s4 s5 aria h1 h2 h3 _ _ _ t1 t2 t3 g1 g2 g3
      rw [h1] at g1
      injection g1 with g1
      subst g1
      rw [h2] at g2
      injection g2 with g2
      subst g2
      rw [h3] at g3
      injection g3 with g3
      subst g3
      simp
    · intro s1 s2 s3 s4 s5 aria e h1 h2 h3 _ _ _ _ t1 t2 t3 g1 g2 g3
      rw [h1] at g1
      injection g1 with g1
      subst g1
      rw [h2] at g2
      injection g2 with g2
      subst g2
      rw [h3] at g3
      injection g3 with g3
      subst g3
      simp
    · intro s1 s2 s3 s4 s5 s6 aria value h1 h2 h3 _ _ _ _ t1 t2 t3 g1 g2 g3
      rw [h1] at g1
      injection g1 with g1
      subst g1
      rw [h2] at g2
      injection g2 with g2
      subst g2
      rw [h3] at g3
      injection g3 with g3
      subst g3
      simp
  · intro q s0
    constructor
    · apply searchNewCountryValue_cases self q s0
        (fun out => out.2.calls.take 3 <+:
          [Call.click self.countryDropDown, Call.fill self.countryDropDown "",
           Call.fill self.countryDropDown q])
      all_goals
        intros
        simp [Session.calls]
    · apply selectNewCountryValue_cases self q s0
        (fun out => out.2.calls.take 3 <+:
          [Call.click self.countryDropDown, Call.fill self.countryDropDown "",
           Call.fill self.countryDropDown q])
      all_goals
        intros
        simp [Session.calls]

/-- C8 at a concrete input: on the stub page, after a search for "Ger" the
search for "sWe" presses ArrowDown, and only with "sWe" in the control. -/
theorem country_query_text_has_no_residue_witness :
    (∀ s3, (Call.press "ArrowDown", s3) ∈
        (stubPage.searchNewCountryValue "sWe" (Session.start
          (stubPage.searchNewCountryValue "Ger" (Session.start freshCombo)).2.state)).2.history →
      s3.text = "sWe") ∧
    (Call.press "ArrowDown", (⟨true, "sWe", none, none⟩ : Combo)) ∈
        (stubPage.searchNewCountryValue "sWe" (Session.start
          (stubPage.searchNewCountryValue "Ger" (Session.start freshCombo)).2.state)).2.history :=
  ⟨(country_query_text_has_no_residue stubPage "Ger" "sWe" freshCombo Combo.text
      comboDriver_fillContract).1,
   (country_query_text_has_no_residue stubPage "Ger" "sWe" freshCombo Combo.text
      comboDriver_fillContract).2.1 ⟨true, "Ger", some 0, none⟩ ⟨true, "", none, none⟩
      ⟨true, "sWe", none, none⟩ rfl rfl rfl⟩

/-- C9 (as stated, refuted): on the stub page with a control that never becomes
interactable the click rejects, and the run of `searchNewCountryValue` issues no
key event at all, not exactly one. -/
theorem searchNewCountryValue_no_key_event_when_click_rejects :
    (stubPage.searchNewCountryValue "sWe" (Session.start blockedCombo)).1 =
      Except.error (PageError.driver "Timeout exceeded") ∧
    keyEvents (stubPage.searchNewCountryValue "sWe" (Session.start blockedCombo)).2.calls = [] ∧
    keyEvents (stubPage.searchNewCountryValue "sWe" (Session.start blockedCombo)).2.calls ≠
      ["ArrowDown"] := by
  have h : keyEvents
      (stubPage.searchNewCountryValue "sWe" (Session.start blockedCombo)).2.calls = [] := rfl
  refine ⟨rfl, h, ?_⟩
  rw [h]
  simp

/-- The committed selection of the stub page changes only on the Enter key
event. -/
theorem comboDriver_commitsOnlyOnEnter : CommitsOnlyOnEnter comboDriver Combo.committed := by
  constructor
  · intro target value st st' h
    simp only [comboDriver] at h
    split at h
    · injection h with h
      rw [← h]
    · exact absurd h (by simp)
  · intro target st st' h
    simp only [comboDriver] at h
    split at h
    · injection h with h
      rw [← h]
    · exact absurd h (by simp)
  · intro target force st st' h
    simp [comboDriver] at h
  · intro key st st' hkey h
    simp only [comboDriver] at h
    split at h
    · injection h with h
      rw [← h]
    · injection h with h
      rw [← h]
  · intro target name st r st' h
    simp only [comboDriver] at h
    split at h
    · split at h
      · injection h with h
        injection h with _ h
        rw [← h]
      · injection h with h
        injection h with _ h
        rw [← h]
    · exact absurd h (by simp)
  · intro target st r st' h
    simp only [comboDriver] at h
    split at h
    · injection h with h
      injection h with _ h
      rw [← h]
    · exact absurd h (by simp)
  · intro target st r st' h
    simp only [comboDriver] at h
    split at h
    · injection h with h
      injection h with _ h
      rw [← h]
    · exact absurd h (by simp)

/-- C9 (amended): in every run of `searchNewCountryValue` the Enter key event is
never issued and the key events issued are either the single ArrowDown or none;
they are the single ArrowDown exactly when the click and the two fills
succeed.  Hence, for a form whose committed selection changes on no driver
primitive other than the Enter key event, the committed selection is the same
after the call as before it. -/
theorem searchNewCountryValue_never_commits {σ γ : Type} (self : SignUpUserPage σ)
    (country : String) (st : σ) (committed : σ → γ)
    (hframe : CommitsOnlyOnEnter self.page committed) :
    "Enter" ∉ keyEvents (self.searchNewCountryValue country (Session.start st)).2.calls ∧
    (keyEvents (self.searchNewCountryValue country (Session.start st)).2.calls = ["ArrowDown"] ∨
      keyEvents (self.searchNewCountryValue country (Session.start st)).2.calls = []) ∧
    (keyEvents (self.searchNewCountryValue country (Session.start st)).2.calls = ["ArrowDown"] ↔
      ∃ s1 s2 s3, self.page.click self.countryDropDown st = Except.ok s1 ∧
        self.page.fill self.countryDropDown "" s1 = Except.ok s2 ∧
        self.page.fill self.countryDropDown country s2 = Except.ok s3) ∧
    committed (self.searchNewCountryValue country (Session.start st)).2.state = committed st := by
  apply searchNewCountryValue_cases self country st
    (fun out => "Enter" ∉ keyEvents out.2.calls ∧
      (keyEvents out.2.calls = ["ArrowDown"] ∨ keyEvents out.2.calls = []) ∧
      (keyEvents out.2.calls = ["ArrowDown"] ↔
        ∃ s1 s2 s3, self.page.click self.countryDropDown st = Except.ok s1 ∧
          self.page.fill self.countryDropDown "" s1 = Except.ok s2 ∧
          self.page.fill self.countryDropDown country s2 = Except.ok s3) ∧
      committed out.2.state = committed st)
  · intro e h1
    simp [Session.calls, keyEvents, h1]
  · intro s1 e h1 h2
    have c1 := hframe.click _ _ _ h1
    simp [Session.calls, keyEvents, h1, h2, c1]
  · intro s1 s2 e h1 h2 h3
    have c1 := hframe.click _ _ _ h1
    have c2 := hframe.fill _ _ _ _ h2
    simp [Session.calls, keyEvents, h1, h2, h3, c1, c2]
  · intro s1 s2 s3 e h1 h2 h3 _
    have c1 := hframe.click _ _ _ h1
    have c2 := hframe.fill _ _ _ _ h2
    have c3 := hframe.fill _ _ _ _ h3
    simp [Session.calls, keyEvents, h1, h2, h3, c1, c2, c3]
  · intro s1 s2 s3 s4 e h1 h2 h3 h4 _
    have c1 := hframe.click _ _ _ h1
    have c2 := hframe.fill _ _ _ _ h2
    have c3 := hframe.fill _ _ _ _ h3
    have c4 := hframe.press _ _ _ (by decide) h4
    simp [Session.calls, keyEvents, h1, h2, h3, c1, c2, c3, c4]
  · intro s1 s2 s3 s4 s5 aria h1 h2 h3 h4 h5 _
    have c1 := hframe.click _ _ _ h1
    have c2 := hframe.fill _ _ _ _ h2
    have c3 := hframe.fill _ _ _ _ h3
    have c4 := hframe.press _ _ _ (by decide) h4
    have c5 := hframe.getAttribute _ _ _ _ _ h5
    simp [Session.calls, keyEvents, h1, h2, h3, c1, c2, c3, c4, c5]
  · intro s1 s2 s3 s4 s5 aria e h1 h2 h3 h4 h5 _ _
    have c1 := hframe.click _ _ _ h1
    have c2 := hframe.fill _ _ _ _ h2
    have c3 := hframe.fill _ _ _ _ h3
    have c4 := hframe.press _ _ _ (by decide) h4
    have c5 := hframe.getAttribute _ _ _ _ _ h5
    simp [Session.calls, keyEvents, h1, h2, h3, c1, c2, c3, c4, c5]
  · intro s1 s2 s3 s4 s5 s6 aria text h1 h2 h3 h4 h5 _ h6
    have c1 := hframe.click _ _ _ h1
    have c2 := hframe.fill _ _ _ _ h2
    have c3 := hframe.fill _ _ _ _ h3
    have c4 := hframe.press _ _ _ (by decide) h4
    have c5 := hframe.getAttribute _ _ _ _ _ h5
    have c6 := hframe.textContent _ _ _ _ h6
    simp [Session.calls, keyEvents, h1, h2, h3, c1, c2, c3, c4, c5, c6]

/-- C9 (amended) at a concrete input: on the stub page a search for "sWe" issues
the single key event ArrowDown and leaves the committed selection as it was. -/
theorem searchNewCountryValue_never_commits_witness :
    keyEvents (stubPage.searchNewCountryValue "sWe"
      (Session.start ⟨true, "Norway", none, some "Norway"⟩)).2.calls = ["ArrowDown"] ∧
    (stubPage.searchNewCountryValue "sWe"
      (Session.start ⟨true, "Norway", none, some "Norway"⟩)).2.state.committed = some "Norway" :=
  ⟨((searchNewCountryValue_never_commits stubPage "sWe" ⟨true, "Norway", none, some "Norway"⟩
      Combo.committed comboDriver_commitsOnlyOnEnter).2.2.1).2
      ⟨⟨true, "Norway", none, some "Norway"⟩, ⟨true, "", none, some "Norway"⟩,
        ⟨true, "sWe", none, some "Norway"⟩, rfl, rfl, rfl⟩,
   (searchNewCountryValue_never_commits stubPage "sWe" ⟨true, "Norway", none, some "Norway"⟩
      Combo.committed comboDriver_commitsOnlyOnEnter).2.2.2⟩

end SignUp
